import Mathlib

/-!
Shallow embedding of packages/core/src/utils/fetch.ts: the private-address
classifier (isPrivateIp), the timeout-guarded request wrapper
(fetchWithTimeout with its FetchError type), and the process-wide transport
configuration (enableHttp2, setGlobalProxy).

Platform pieces (WHATWG URL parsing, the undici dispatcher machinery) are
external to the repository; they are kept abstract (a parse function, a URI
validity predicate) or, where the spec pins their behavior, modelled from the
spec with an explicit note.
-/

/-- Result of parsing a URL string, as produced by the platform URL parser:
only the fields the embedded code can observe. -/
structure URLRecord where
  scheme : String
  hostname : String
  port : Option Nat
  path : String
  query : Option String
deriving DecidableEq

/-- Start-anchored literal match of the pattern p against the string s,
computed on the character lists so that it evaluates inside the kernel. -/
def strStartsWith (s p : String) : Bool :=
  p.data.isPrefixOf s.data

/-- Anchored-on-both-ends match, i.e. string equality on character lists. -/
def strIs (s p : String) : Bool :=
  s.data == p.data

/-- Second-octet strings accepted by the alternation in the source regex
172 dot (1[6-9]|2[0-9]|3[0-1]) dot. -/
def octets172 : List String :=
  [("16"), ("17"), ("18"), ("19"), ("20"), ("21"), ("22"), ("23"),
   ("24"), ("25"), ("26"), ("27"), ("28"), ("29"), ("30"), ("31")]

/-- Embedding of the source regex for the 172.16.0.0/12 range: the hostname
starts with 172., a second octet between 16 and 31, and a dot. -/
def range172 (h : String) : Bool :=
  octets172.any (fun d => strStartsWith h (("172.") ++ d ++ (".")))

/-- Embedding of PRIVATE_IP_RANGES: each anchored regex becomes the test it
performs on the hostname (a start-anchored literal becomes startsWith, the
fully anchored one becomes string equality). -/
def PRIVATE_IP_RANGES : List (String → Bool) :=
  [fun h => strStartsWith h ("10."),
   fun h => strStartsWith h ("127."),
   range172,
   fun h => strStartsWith h ("192.168."),
   fun h => strIs h ("::1"),
   fun h => strStartsWith h ("fc00:"),
   fun h => strStartsWith h ("fe80:")]

/-- Hostname-level check the source performs inside isPrivateIp:
PRIVATE_IP_RANGES.some(range => range.test(hostname)). -/
def isPrivateHostname (hostname : String) : Bool :=
  PRIVATE_IP_RANGES.any (fun range => range hostname)

/-- Embedding of isPrivateIp: parse the url (the platform parser is the
abstract argument p; a throwing parse is p returning none, caught by the
try/catch), take the hostname of the parse result, and test it against
PRIVATE_IP_RANGES; on parse failure return false. -/
def isPrivateIp (p : String → Option URLRecord) (url : String) : Bool :=
  match p url with
  | some u => PRIVATE_IP_RANGES.any (fun range => range u.hostname)
  | none => false

/-- The result agrees with the hostname-only check whenever parsing
succeeds. -/
theorem isPrivateIp_eq_hostname (p : String → Option URLRecord) (url : String)
    (u : URLRecord) (hp : p url = some u) :
    isPrivateIp p url = isPrivateHostname u.hostname := by
  simp [isPrivateIp, hp, isPrivateHostname]

example : isPrivateHostname ("10.0.0.1") = true := by decide
example : isPrivateHostname ("172.16.0.1") = true := by decide
example : isPrivateHostname ("172.31.9.9") = true := by decide
example : isPrivateHostname ("172.15.0.1") = false := by decide
example : isPrivateHostname ("8.8.8.8") = false := by decide
example : isPrivateHostname ("example.com") = false := by decide
example : isPrivateHostname ("::1") = true := by decide
example : isPrivateHostname ("fe80:1234") = true := by decide
example : isPrivateHostname ("10.example.com") = true := by decide

/-- Observable shape of a value thrown by the platform fetch call: its
human-readable message and, for Node-style errors, an optional
machine-readable code property. -/
structure JsError where
  message : String
  code : Option String
deriving DecidableEq

/-- Modelled from the spec: isNodeError (imported from utils/errors.ts,
which is not among the sources) recognizes thrown values that are Error
objects carrying a code property; in this embedding every thrown value is
an Error, so the check is that the code property is present. -/
def isNodeError (e : JsError) : Bool :=
  e.code.isSome

/-- Modelled from the spec: getErrorMessage (imported from utils/errors.ts,
which is not among the sources) extracts the human-readable message of a
thrown value; the spec states that network failures surface the underlying
cause message. -/
def getErrorMessage (e : JsError) : String :=
  e.message

/-- Modelled from the spec: the error with which the platform fetch rejects
once the timer callback calls controller.abort(); the spec states that
cancellation firing first makes the call fail with Timeout, which the
source detects through the ABORT_ERR code of this rejection. -/
def abortErrorJs : JsError :=
  JsError.mk ("This operation was aborted") (some ("ABORT_ERR"))

/-- Embedding of the FetchError class: message, optional code, optional
cause (from ErrorOptions), and the name field that the constructor always
sets to FetchError. -/
structure FetchError where
  message : String
  code : Option String
  cause : Option JsError
  name : String
deriving DecidableEq

/-- Embedding of the FetchError constructor new FetchError(message, code,
options): stores the arguments and sets name to FetchError. -/
def FetchError.make (message : String) (code : Option String)
    (cause : Option JsError) : FetchError :=
  FetchError.mk message code cause ("FetchError")

/-- How the underlying fetch(url, signal) settles relative to the timer of
one fetchWithTimeout invocation: it resolves first, it rejects first with
some error, or the timer fires first (the timer callback aborts the
controller and the platform rejects the fetch with the abort error). -/
inductive FetchEvent (Resp : Type) where
  | respond : Resp → FetchEvent Resp
  | reject : JsError → FetchEvent Resp
  | timerFires : FetchEvent Resp
deriving DecidableEq

/-- Observable outcome of one fetchWithTimeout invocation: the returned
response or thrown FetchError, whether clearTimeout ran on the timer the
call started, and whether controller.abort() was called. -/
structure FetchCallResult (Resp : Type) where
  result : Except FetchError Resp
  timerCleared : Bool
  aborted : Bool

/-- Embedding of the catch block of fetchWithTimeout: an error with code
ABORT_ERR becomes the timeout FetchError with code ETIMEDOUT and no cause;
any other error is wrapped into a FetchError with its message, no code,
and the original error attached as the cause. -/
def settleError (timeout : Nat) (e : JsError) : FetchError :=
  if isNodeError e && e.code == some ("ABORT_ERR") then
    FetchError.make (("Request timed out after ") ++ toString timeout ++ ("ms"))
      (some ("ETIMEDOUT")) none
  else
    FetchError.make (getErrorMessage e) none (some e)

/-- Embedding of fetchWithTimeout(url, timeout): the AbortController and
timer are started, fetch is awaited, the catch block classifies a
rejection, and the finally block clears the timer on every path. The url
is passed through to the platform fetch, whose settling is the event ev. -/
def fetchWithTimeout (Resp : Type) (url : String) (timeout : Nat)
    (ev : FetchEvent Resp) : FetchCallResult Resp :=
  match ev with
  | FetchEvent.respond r => FetchCallResult.mk (Except.ok r) true false
  | FetchEvent.reject e => FetchCallResult.mk (Except.error (settleError timeout e)) true false
  | FetchEvent.timerFires =>
      FetchCallResult.mk (Except.error (settleError timeout abortErrorJs)) true true

example :
    (fetchWithTimeout Nat ("https://x") 50 FetchEvent.timerFires).result =
      Except.error (FetchError.make ("Request timed out after 50ms")
        (some ("ETIMEDOUT")) none) := rfl

/-- Process-wide undici dispatcher as observable by this module: the
runtime default (no multiplexing), a direct Agent with its allowH2 flag,
or a ProxyAgent with its uri and allowH2 flag. -/
inductive Dispatcher where
  | defaultDispatcher : Dispatcher
  | agent : Bool → Dispatcher
  | proxyAgent : String → Bool → Dispatcher
deriving DecidableEq

/-- Configuration error raised when the proxy transport is given a
syntactically invalid URI. -/
inductive ConfigError where
  | invalidProxyURI : String → ConfigError
deriving DecidableEq

/-- Multiplexing capability of a dispatcher: the runtime default is the
non-multiplexed HTTP/1.1 behavior; an Agent or ProxyAgent multiplexes
exactly when its allowH2 flag is set. -/
def multiplexingEnabled : Dispatcher → Bool
  | Dispatcher.defaultDispatcher => false
  | Dispatcher.agent h2 => h2
  | Dispatcher.proxyAgent _ h2 => h2

/-- Proxy endpoint a dispatcher routes through, when any. -/
def routesThroughProxy : Dispatcher → Option String
  | Dispatcher.defaultDispatcher => none
  | Dispatcher.agent _ => none
  | Dispatcher.proxyAgent uri _ => some uri

/-- Modelled from the spec: construction of the proxied transport (the
undici ProxyAgent, external to the repository) fails with a configuration
error when the uri is not syntactically valid; URI validity itself is the
platform parser, kept abstract as the valid argument. On success it yields
the proxying dispatcher with the requested allowH2 flag. -/
def mkProxyAgent (valid : String → Bool) (uri : String) (allowH2 : Bool) :
    Except ConfigError Dispatcher :=
  if valid uri then Except.ok (Dispatcher.proxyAgent uri allowH2)
  else Except.error (ConfigError.invalidProxyURI uri)

/-- Embedding of enableHttp2: setGlobalDispatcher(new Agent(allowH2 true))
replaces the process-wide dispatcher with this one, unconditionally. -/
def enableHttp2 : Dispatcher :=
  Dispatcher.agent true

/-- Embedding of setGlobalProxy(proxy): builds new ProxyAgent(uri proxy,
allowH2 true) and installs it as the process-wide dispatcher; if the
ProxyAgent construction fails, nothing is installed and the configuration
error propagates. -/
def setGlobalProxy (valid : String → Bool) (proxy : String) :
    Except ConfigError Dispatcher :=
  mkProxyAgent valid proxy true

/-- One configuration call made by the process: enableHttp2() or
setGlobalProxy(proxy). -/
inductive ConfigOp where
  | opEnableHttp2 : ConfigOp
  | opSetGlobalProxy : String → ConfigOp
deriving DecidableEq

/-- Whether a configuration call succeeds (enableHttp2 always does;
setGlobalProxy succeeds exactly on a valid proxy URI). -/
def opOk (valid : String → Bool) : ConfigOp → Bool
  | ConfigOp.opEnableHttp2 => true
  | ConfigOp.opSetGlobalProxy proxy => valid proxy

/-- Effect of one configuration call on the process-wide dispatcher:
setGlobalDispatcher replaces the previous dispatcher; a failing
setGlobalProxy leaves the previous dispatcher in place. -/
def applyConfigOp (valid : String → Bool) (s : Dispatcher) : ConfigOp → Dispatcher
  | ConfigOp.opEnableHttp2 => enableHttp2
  | ConfigOp.opSetGlobalProxy proxy =>
      match setGlobalProxy valid proxy with
      | Except.ok d => d
      | Except.error _ => s

/-- Dispatcher resulting from a sequence of configuration calls starting
from the dispatcher s. -/
def runConfigOps (valid : String → Bool) (s : Dispatcher) (ops : List ConfigOp) :
    Dispatcher :=
  ops.foldl (applyConfigOp valid) s

example :
    runConfigOps (fun _ => true) Dispatcher.defaultDispatcher
      [ConfigOp.opEnableHttp2, ConfigOp.opSetGlobalProxy ("http://p:1")] =
      Dispatcher.proxyAgent ("http://p:1") true := by decide

/-- C4: for every URL whose parsed hostname matches one of the literal
private patterns 10.x, 127.x, 172.16-31.x, 192.168.x, ::1, fc00:-prefixed
or fe80:-prefixed, isPrivateIp returns true; for a URL whose hostname is
8.8.8.8 or example.com it returns false. -/
theorem isPrivateIp_private_ranges (p : String → Option URLRecord) (url : String)
    (u : URLRecord) (hp : p url = some u) :
    ((strStartsWith u.hostname ("10.") = true ∨
      strStartsWith u.hostname ("127.") = true ∨
      range172 u.hostname = true ∨
      strStartsWith u.hostname ("192.168.") = true ∨
      strIs u.hostname ("::1") = true ∨
      strStartsWith u.hostname ("fc00:") = true ∨
      strStartsWith u.hostname ("fe80:") = true) →
      isPrivateIp p url = true) ∧
    (u.hostname = ("8.8.8.8") → isPrivateIp p url = false) ∧
    (u.hostname = ("example.com") → isPrivateIp p url = false) := by
  refine ⟨?_, ?_, ?_⟩
  · intro h
    rw [isPrivateIp_eq_hostname p url u hp]
    simp only [isPrivateHostname, PRIVATE_IP_RANGES, List.any_cons, List.any_nil,
      Bool.or_false, Bool.or_eq_true]
    rcases h with h | h | h | h | h | h | h
    all_goals simp [h]
  · intro h
    rw [isPrivateIp_eq_hostname p url u hp, h]
    decide
  · intro h
    rw [isPrivateIp_eq_hostname p url u hp, h]
    decide

/-- Parse result used to instantiate the classifier theorems on a private
dotted-quad hostname. -/
def urlRec10 : URLRecord :=
  URLRecord.mk ("http") ("10.0.0.1") none ("/") none

/-- Witness for isPrivateIp_private_ranges at the hostname 10.0.0.1. -/
theorem isPrivateIp_private_ranges_witness :
    isPrivateIp (fun _ => some urlRec10) ("http://10.0.0.1/") = true :=
  (isPrivateIp_private_ranges (fun _ => some urlRec10) ("http://10.0.0.1/")
    urlRec10 rfl).1 (Or.inl (by decide))

/-- C5: for every input string on which the URL parser fails, isPrivateIp
returns false (the try/catch turns the parse exception into false, so the
call does not throw). -/
theorem isPrivateIp_parse_failure (p : String → Option URLRecord) (url : String)
    (hp : p url = none) :
    isPrivateIp p url = false := by
  simp [isPrivateIp, hp]

/-- Witness for isPrivateIp_parse_failure on the malformed input. -/
theorem isPrivateIp_parse_failure_witness :
    isPrivateIp (fun _ => none) ("not a url") = false :=
  isPrivateIp_parse_failure (fun _ => none) ("not a url") rfl

/-- C10: the classification is a function of the hostname text alone
(scheme, port, path and query of the parse result have no effect), and any
hostname that merely begins with one of the private markers is classified
private even when it is a domain name rather than an IP literal, as
10.example.com shows. -/
theorem isPrivateIp_hostname_only :
    (∀ (p : String → Option URLRecord) (url : String) (u : URLRecord),
      p url = some u → isPrivateIp p url = isPrivateHostname u.hostname) ∧
    isPrivateHostname ("10.example.com") = true ∧
    (∀ h : String,
      (strStartsWith h ("10.") = true ∨ strStartsWith h ("127.") = true ∨
       strStartsWith h ("192.168.") = true ∨ range172 h = true ∨
       strStartsWith h ("fc00:") = true ∨ strStartsWith h ("fe80:") = true) →
      isPrivateHostname h = true) := by
  refine ⟨fun p url u hp => isPrivateIp_eq_hostname p url u hp, by decide, ?_⟩
  intro h hh
  simp only [isPrivateHostname, PRIVATE_IP_RANGES, List.any_cons, List.any_nil,
    Bool.or_false, Bool.or_eq_true]
  rcases hh with t | t | t | t | t | t
  all_goals simp [t]

/-- Parse result used to instantiate the hostname-only theorem on a
domain-name hostname with scheme, port, path and query all present. -/
def urlRecDom : URLRecord :=
  URLRecord.mk ("https") ("10.example.com") (some 8443) ("/a") (some ("q=1"))

/-- Witness for isPrivateIp_hostname_only at the domain 10.example.com. -/
theorem isPrivateIp_hostname_only_witness :
    isPrivateIp (fun _ => some urlRecDom) ("https://10.example.com:8443/a?q=1") =
      isPrivateHostname ("10.example.com") :=
  isPrivateIp_hostname_only.1 (fun _ => some urlRecDom)
    ("https://10.example.com:8443/a?q=1") urlRecDom rfl

/-- Every FetchError built by the catch block carries the name FetchError,
whichever branch produced it. -/
theorem settleError_name (t : Nat) (e : JsError) :
    (settleError t e).name = ("FetchError") := by
  unfold settleError
  split <;> rfl

/-- Connection-reset style error used as the concrete failing input. -/
def econnResetErr : JsError :=
  JsError.mk ("read ECONNRESET") (some ("ECONNRESET"))

/-- C1 counterexample: for a request that fails with a connection-reset
error carrying code ECONNRESET, fetchWithTimeout fails with a FetchError
whose cause is the original error but whose code field is none, not the
original code ECONNRESET, so the code field does not equal the original
error code even though one is present. -/
theorem fetchWithTimeout_code_not_copied :
    (fetchWithTimeout Nat ("https://example.com") 100
        (FetchEvent.reject econnResetErr)).result =
      Except.error (FetchError.make ("read ECONNRESET") none (some econnResetErr)) ∧
    econnResetErr.code = some ("ECONNRESET") ∧
    (FetchError.make ("read ECONNRESET") none (some econnResetErr)).code ≠
      econnResetErr.code := by
  refine ⟨rfl, rfl, by decide⟩

/-- C1 amended: for every request failure that is not classified as the
timeout abort (its code is not ABORT_ERR), fetchWithTimeout fails with a
FetchError whose cause field is exactly the original underlying error and
whose own code field is none; the original code is recoverable only
through the attached cause. -/
theorem fetchWithTimeout_nonabort_preserves_cause (Resp : Type) (url : String)
    (t : Nat) (e : JsError)
    (h : (isNodeError e && e.code == some ("ABORT_ERR")) = false) :
    (fetchWithTimeout Resp url t (FetchEvent.reject e)).result =
      Except.error (FetchError.make (getErrorMessage e) none (some e)) := by
  have hr : (fetchWithTimeout Resp url t (FetchEvent.reject e)).result =
      Except.error (settleError t e) := rfl
  rw [hr]
  unfold settleError
  rw [h]
  simp

/-- Witness for fetchWithTimeout_nonabort_preserves_cause at the concrete
connection-reset error. -/
theorem fetchWithTimeout_nonabort_preserves_cause_witness :
    (fetchWithTimeout Nat ("https://w") 42 (FetchEvent.reject econnResetErr)).result =
      Except.error (FetchError.make (getErrorMessage econnResetErr) none
        (some econnResetErr)) :=
  fetchWithTimeout_nonabort_preserves_cause Nat ("https://w") 42 econnResetErr
    (by decide)

/-- C2: whenever the cancellation timer fires before the request settles,
the in-flight request is aborted and the call fails with the
timeout-classified FetchError, code ETIMEDOUT, whose message contains the
configured timeout value. -/
theorem fetchWithTimeout_timer_fires_timeout (Resp : Type) (url : String) (t : Nat) :
    (fetchWithTimeout Resp url t FetchEvent.timerFires).result =
      Except.error (FetchError.make
        (("Request timed out after ") ++ toString t ++ ("ms"))
        (some ("ETIMEDOUT")) none) ∧
    (∃ seg1 seg2 : String,
      ("Request timed out after ") ++ toString t ++ ("ms") =
        seg1 ++ toString t ++ seg2) ∧
    (fetchWithTimeout Resp url t FetchEvent.timerFires).aborted = true :=
  ⟨rfl, ⟨("Request timed out after "), ("ms"), rfl⟩, rfl⟩

/-- C3: on every settling of the underlying request (response, rejection,
or timer firing first) the finally block clears the timer, so no pending
timer remains after fetchWithTimeout returns or fails. -/
theorem fetchWithTimeout_timer_cleared (Resp : Type) (url : String) (t : Nat)
    (ev : FetchEvent Resp) :
    (fetchWithTimeout Resp url t ev).timerCleared = true := by
  cases ev <;> rfl

/-- C9: every failure of fetchWithTimeout is a FetchError (name field
FetchError), so no raw underlying error escapes unwrapped, and the failure
produced when the timer fires carries the machine-readable code
ETIMEDOUT. -/
theorem fetchWithTimeout_errors_uniform (Resp : Type) (url : String) (t : Nat) :
    (∀ (ev : FetchEvent Resp) (err : FetchError),
      (fetchWithTimeout Resp url t ev).result = Except.error err →
      err.name = ("FetchError")) ∧
    (∀ err : FetchError,
      (fetchWithTimeout Resp url t FetchEvent.timerFires).result = Except.error err →
      err.code = some ("ETIMEDOUT")) := by
  constructor
  · intro ev err h
    cases ev with
    | respond r =>
        have hr : (fetchWithTimeout Resp url t (FetchEvent.respond r)).result =
            Except.ok r := rfl
        rw [hr] at h
        exact Except.noConfusion h
    | reject e =>
        have hr : (fetchWithTimeout Resp url t (FetchEvent.reject e)).result =
            Except.error (settleError t e) := rfl
        rw [hr] at h
        injection h with h2
        rw [← h2]
        exact settleError_name t e
    | timerFires =>
        have hr : (fetchWithTimeout Resp url t FetchEvent.timerFires).result =
            Except.error (settleError t abortErrorJs) := rfl
        rw [hr] at h
        injection h with h2
        rw [← h2]
        exact settleError_name t abortErrorJs
  · intro err h
    have hr : (fetchWithTimeout Resp url t FetchEvent.timerFires).result =
        Except.error (settleError t abortErrorJs) := rfl
    rw [hr] at h
    injection h with h2
    rw [← h2]
    rfl

/-- Witness for fetchWithTimeout_errors_uniform at the timer-first event
with timeout 7. -/
theorem fetchWithTimeout_errors_uniform_witness :
    (FetchError.make (("Request timed out after ") ++ toString 7 ++ ("ms"))
        (some ("ETIMEDOUT")) none).name = ("FetchError") ∧
    (FetchError.make (("Request timed out after ") ++ toString 7 ++ ("ms"))
        (some ("ETIMEDOUT")) none).code = some ("ETIMEDOUT") :=
  ⟨(fetchWithTimeout_errors_uniform Nat ("https://x") 7).1 FetchEvent.timerFires
      (FetchError.make (("Request timed out after ") ++ toString 7 ++ ("ms"))
        (some ("ETIMEDOUT")) none) rfl,
   (fetchWithTimeout_errors_uniform Nat ("https://x") 7).2
      (FetchError.make (("Request timed out after ") ++ toString 7 ++ ("ms"))
        (some ("ETIMEDOUT")) none) rfl⟩

/-- URI validity predicate used to instantiate the transport theorems: it
accepts exactly the strings that begin with an http:// scheme marker. -/
def validHttpColon : String → Bool :=
  fun u => strStartsWith u ("http://")

/-- C6: setGlobalProxy fails with the configuration error exactly when the
proxy URI is not syntactically valid; on a valid proxy URI it succeeds and
installs a dispatcher that routes subsequent requests through that
endpoint. -/
theorem setGlobalProxy_validity (valid : String → Bool) (proxy : String) :
    (valid proxy = false →
      setGlobalProxy valid proxy =
        Except.error (ConfigError.invalidProxyURI proxy)) ∧
    (valid proxy = true →
      setGlobalProxy valid proxy =
        Except.ok (Dispatcher.proxyAgent proxy true) ∧
      routesThroughProxy (Dispatcher.proxyAgent proxy true) = some proxy) := by
  constructor
  · intro h
    simp [setGlobalProxy, mkProxyAgent, h]
  · intro h
    exact ⟨by simp [setGlobalProxy, mkProxyAgent, h], rfl⟩

/-- Witness for setGlobalProxy_validity on an invalid and on a valid proxy
URI. -/
theorem setGlobalProxy_validity_witness :
    setGlobalProxy validHttpColon ("not a uri") =
      Except.error (ConfigError.invalidProxyURI ("not a uri")) ∧
    setGlobalProxy validHttpColon ("http://proxy.local:8080") =
      Except.ok (Dispatcher.proxyAgent ("http://proxy.local:8080") true) :=
  ⟨(setGlobalProxy_validity validHttpColon ("not a uri")).1 (by decide),
   ((setGlobalProxy_validity validHttpColon ("http://proxy.local:8080")).2
      (by decide)).1⟩

/-- C7: every dispatcher successfully installed by setGlobalProxy has
multiplexing enabled (allowH2 true) in addition to routing through the
proxy, and it is never the non-multiplexed runtime default. -/
theorem setGlobalProxy_multiplexed (valid : String → Bool) (proxy : String)
    (d : Dispatcher) (h : setGlobalProxy valid proxy = Except.ok d) :
    multiplexingEnabled d = true ∧ routesThroughProxy d = some proxy ∧
    d ≠ Dispatcher.defaultDispatcher := by
  unfold setGlobalProxy mkProxyAgent at h
  cases hv : valid proxy with
  | false =>
      rw [hv] at h
      simp at h
  | true =>
      rw [hv] at h
      simp at h
      rw [← h]
      exact ⟨rfl, rfl, fun hc => Dispatcher.noConfusion hc⟩

/-- Witness for setGlobalProxy_multiplexed at a concrete valid proxy. -/
theorem setGlobalProxy_multiplexed_witness :
    multiplexingEnabled (Dispatcher.proxyAgent ("http://proxy.local:8080") true) = true ∧
    routesThroughProxy (Dispatcher.proxyAgent ("http://proxy.local:8080") true) =
      some ("http://proxy.local:8080") ∧
    Dispatcher.proxyAgent ("http://proxy.local:8080") true ≠
      Dispatcher.defaultDispatcher :=
  setGlobalProxy_multiplexed validHttpColon ("http://proxy.local:8080")
    (Dispatcher.proxyAgent ("http://proxy.local:8080") true) rfl

/-- A successful configuration call installs a dispatcher that does not
depend on the previously installed one. -/
theorem applyConfigOp_of_ok (valid : String → Bool) (s t : Dispatcher)
    (op : ConfigOp) (h : opOk valid op = true) :
    applyConfigOp valid s op = applyConfigOp valid t op := by
  cases op with
  | opEnableHttp2 => rfl
  | opSetGlobalProxy proxy =>
      have hv : valid proxy = true := h
      simp [applyConfigOp, setGlobalProxy, mkProxyAgent, hv]

/-- C8: after any sequence of configuration calls, the process-wide
dispatcher is determined solely by the last successful call, whatever
dispatcher was installed before and whatever calls preceded it; and
repeating a call is idempotent, the configuration after the repeat
equalling the configuration after a single call. -/
theorem transport_last_writer_wins (valid : String → Bool) :
    (∀ (s t : Dispatcher) (ops1 ops2 : List ConfigOp) (op : ConfigOp),
      opOk valid op = true →
      runConfigOps valid s (ops1 ++ [op]) = runConfigOps valid t (ops2 ++ [op])) ∧
    (∀ (s : Dispatcher) (ops : List ConfigOp) (op : ConfigOp),
      runConfigOps valid s (ops ++ [op, op]) = runConfigOps valid s (ops ++ [op])) := by
  constructor
  · intro s t ops1 ops2 op h
    rw [runConfigOps, runConfigOps, List.foldl_append, List.foldl_append]
    simp only [List.foldl_cons, List.foldl_nil]
    exact applyConfigOp_of_ok valid _ _ op h
  · intro s ops op
    rw [runConfigOps, runConfigOps, List.foldl_append, List.foldl_append]
    simp only [List.foldl_cons, List.foldl_nil]
    cases op with
    | opEnableHttp2 => rfl
    | opSetGlobalProxy proxy =>
        cases hv : valid proxy with
        | false => simp [applyConfigOp, setGlobalProxy, mkProxyAgent, hv]
        | true => simp [applyConfigOp, setGlobalProxy, mkProxyAgent, hv]

/-- Witness for transport_last_writer_wins: two different starting
dispatchers and histories followed by the same final call agree. -/
theorem transport_last_writer_wins_witness :
    runConfigOps validHttpColon Dispatcher.defaultDispatcher
      ([ConfigOp.opSetGlobalProxy ("http://a:1")] ++ [ConfigOp.opEnableHttp2]) =
    runConfigOps validHttpColon (Dispatcher.agent false)
      ([] ++ [ConfigOp.opEnableHttp2]) :=
  (transport_last_writer_wins validHttpColon).1 Dispatcher.defaultDispatcher
    (Dispatcher.agent false) [ConfigOp.opSetGlobalProxy ("http://a:1")] []
    ConfigOp.opEnableHttp2 rfl
